import Mathlib

/-!
Verification of the core logic of Py2exe-GUI: the interpreter-environment
inspector (`PyEnv` in `src/py2exe_gui/Utilities/python_env.py`) and the
packaging task state holder (`PackagingTask` in
`src/py2exe_gui/Core/packaging_task.py`).

The Python code is shallowly embedded.  Paths are modelled as strings with
`pathlib` semantics on a POSIX platform (the `//` double-slash root special
case of `PurePosixPath` is not modelled; the current working directory is
assumed absolute, as `os.getcwd` guarantees).  The standard library
facilities the code calls — `subprocess.run` and `json.loads` — are
modelled as an explicit environment (`PyWorld`): a function from command
line to process outcome, and a decoder from a stdout string to a list of
`name`/`version` records.  Exceptions are modelled by `Except` values.
-/

set_option autoImplicit false

namespace Py2exeGUI

/-! ## Path model (`pathlib` on POSIX) -/

/-- Splits a character list at every `/`, keeping empty pieces, like
Python's `str.split("/")`.  `cur` accumulates the current piece in
reverse. -/
def splitSlashAux : List Char → List Char → List String
  | [], cur => [String.mk cur.reverse]
  | c :: rest, cur =>
      if c = '/' then String.mk cur.reverse :: splitSlashAux rest []
      else splitSlashAux rest (c :: cur)

/-- Whether the path string begins with a `/` (an absolute POSIX path). -/
def isAbsPath (s : String) : Bool :=
  match s.data with
  | c :: _ => c == '/'
  | [] => false

/-- Joins strings with the given separator between consecutive elements. -/
def joinWith (sep : String) : List String → String
  | [] => ""
  | [x] => x
  | x :: y :: xs => x ++ sep ++ joinWith sep (y :: xs)

/-- Components of a path string as `pathlib` parses them: split on `/`,
dropping empty components and single-dot components (`..` is kept,
as `PurePath` does not resolve it). -/
def pathParts (s : String) : List String :=
  (splitSlashAux s.data []).filter (fun c => (c != "") && (c != "."))

/-- Models `str(PurePosixPath(s))` (equal to `PurePosixPath(s).as_posix()`):
the normalized textual form of a path.  An empty or all-dots relative path
renders as `"."`, as `pathlib` does. -/
def strOfPath (s : String) : String :=
  if isAbsPath s then "/" ++ joinWith "/" (pathParts s)
  else if (pathParts s).isEmpty then "." else joinWith "/" (pathParts s)

/-- Models `Path(s).absolute().as_posix()` (on POSIX also equal to
`str(Path(s).absolute())`) given the absolute current working directory
`cwd`: a relative path is prefixed with `cwd`, then normalized. -/
def absPosix (cwd s : String) : String :=
  strOfPath (if isAbsPath s then s else cwd ++ "/" ++ s)

/-- Models `PurePath.name` of an already-normalized path string: the final
path component, or the empty string when there is none. -/
def pathName (s : String) : String :=
  ((pathParts s).getLast?).getD ""

/-- Index of the last occurrence of `.` in a character list, scanning with a
running index; models Python's `str.rfind(".")` (with `none` for -1). -/
def lastDotIdxAux : List Char → Nat → Option Nat → Option Nat
  | [], _, acc => acc
  | c :: rest, i, acc => lastDotIdxAux rest (i + 1) (if c = '.' then some i else acc)

/-- Models `name.rfind(".")` on the string `nm`. -/
def lastDotIdx (nm : String) : Option Nat :=
  lastDotIdxAux nm.data 0 none

/-- Models `PurePath.stem` applied to a path whose final component is `nm`:
the component with its last suffix removed.  Follows CPython's
implementation: with `i = name.rfind(".")`, the stem is `name[:i]` when
`0 < i < len(name) - 1`, and the whole name otherwise. -/
def stemOfName (nm : String) : String :=
  match lastDotIdx nm with
  | none => nm
  | some i => if 0 < i ∧ i + 1 < nm.data.length then String.mk (nm.data.take i) else nm

/-- Whether the character list `pat` occurs at the very start of `s`. -/
def isPrefixList : List Char → List Char → Bool
  | [], _ => true
  | _ :: _, [] => false
  | p :: ps, c :: cs => p == c && isPrefixList ps cs

/-- Whether the character list `pat` occurs anywhere inside `s`. -/
def isSubListOf (pat : List Char) : List Char → Bool
  | [] => isPrefixList pat []
  | c :: cs => isPrefixList pat (c :: cs) || isSubListOf pat cs

/-- Models Python's substring test `pat in s` (true for an empty `pat`). -/
def containsSub (s pat : String) : Bool :=
  isSubListOf pat.data s.data

/-! ## Enumerations

`PyEnvType` and `PyInstOpt` live in the repository's `Constants` package,
which is not part of the examined sources. -/

/-- Modelled from the spec: the `PyEnvType` enumeration from the Constants
package (not included under src/); the spec lists the kinds system, venv,
poetry, conda, unknown. -/
inductive PyEnvType where
  | system
  | venv
  | poetry
  | conda
  | unknown
  deriving DecidableEq

/-- Modelled from the spec: the `PyInstOpt` enumeration from the Constants
package (not included under src/); a closed enumeration of packaging
options, its members taken from the commented attribute list in
`PackagingTask.__init__` (script path, icon path, add-data, add-binary,
output name, one-file/one-dir, console, hidden imports, clean). -/
inductive PyInstOpt where
  | script_path
  | icon_path
  | add_data
  | add_binary
  | out_name
  | FD
  | console
  | hidden_import
  | clean
  deriving DecidableEq

/-- The members of `PyInstOpt` in declaration order, as Python's iteration
over the enumeration produces them. -/
def PyInstOpt.all : List PyInstOpt :=
  [.script_path, .icon_path, .add_data, .add_binary, .out_name,
   .FD, .console, .hidden_import, .clean]

/-! ## Subprocess and JSON environment -/

/-- Outcome of attempting to launch one external process, as
`subprocess.run` sees it: either the process ran to completion (with an
exit code and captured stdout), or it could not be launched at all (an
`OSError` such as `FileNotFoundError`, carrying its message). -/
inductive ProcResult where
  | completed (returncode : Int) (stdout : String)
  | launchFailure (msg : String)
  deriving DecidableEq

/-- A record of `pip list --format json` output: one installed package. -/
structure PipPackage where
  name : String
  version : String
  deriving DecidableEq

/-- The environment the inspector runs against: `run` models
`subprocess.run(cmd, capture_output=True, text=True)` for a given command
line, and `jsonLoads` models `json.loads` on the pip stdout (returning the
decoded records, or the `JSONDecodeError` message; the JSON grammar itself
is Python standard library behaviour, outside the code under
verification). -/
structure PyWorld where
  run : List String → ProcResult
  jsonLoads : String → Except String (List PipPackage)

/-- Python exception values the embedded code can produce or propagate. -/
inductive PyExc where
  | runtimeError (msg : String)
  | osError (msg : String)
  | typeError (msg : String)
  | calledProcessError (output : String)
  deriving DecidableEq

/-- Models `str(e)` for a caught exception: its message text. -/
def excMsg : PyExc → String
  | .runtimeError m => m
  | .osError m => m
  | .typeError m => m
  | .calledProcessError out => out

/-- Models `subprocess.run(cmd, capture_output=True, text=True)` with the
`check` flag made explicit: a launch failure raises `OSError`;
`CalledProcessError` is raised only when `check` is true and the exit code
is nonzero (the source never passes `check=True`, so its calls use
`check = false`). -/
def subprocessRun (w : PyWorld) (cmd : List String) (check : Bool) :
    Except PyExc (Int × String) :=
  match w.run cmd with
  | .completed rc out =>
      if check && rc != 0 then .error (.calledProcessError out) else .ok (rc, out)
  | .launchFailure m => .error (.osError m)

/-! ## The environment inspector (`PyEnv`) -/

/-- The command line `get_py_version` runs. -/
def pyVersionCmd (executable_path : String) : List String :=
  [executable_path, "-c",
   "import platform;print(platform.python_version(), end=\x27\x27)"]

/-- The command line `get_installed_packages` runs. -/
def pipListCmd (executable_path : String) : List String :=
  [executable_path, "-m", "pip", "list", "--format", "json",
   "--disable-pip-version-check", "--no-color", "--no-python-version-warning"]

/-- One discovered Python interpreter environment (the `PyEnv` class). -/
structure PyEnv where
  exe_path : String
  pyversion : String
  installed_packages : List PipPackage
  type : PyEnvType
  deriving DecidableEq

/-- Embeds `PyEnv.get_py_version`: runs the version-printing command (with
`check` left at its `False` default) and returns `result.stdout`; the
`except CalledProcessError` clause turns that exception into a
`RuntimeError`, and any other exception propagates. -/
def PyEnv.get_py_version (w : PyWorld) (executable_path : String) :
    Except PyExc String :=
  match subprocessRun w (pyVersionCmd executable_path) false with
  | .ok (_rc, stdout) => .ok stdout
  | .error (PyExc.calledProcessError out) =>
      .error (.runtimeError ("Failed to get Python version: " ++ out))
  | .error e => .error e

/-- Embeds `PyEnv.get_installed_packages`: runs the pip list command (with
`check` left at its `False` default); `except CalledProcessError` yields a
"Failed to get installed packages" `RuntimeError`, the generic
`except Exception` yields an "An error occurred" `RuntimeError`, and a
`json.loads` failure yields a "Failed to parse installed packages"
`RuntimeError`. -/
def PyEnv.get_installed_packages (w : PyWorld) (executable_path : String) :
    Except PyExc (List PipPackage) :=
  match subprocessRun w (pipListCmd executable_path) false with
  | .error (PyExc.calledProcessError out) =>
      .error (.runtimeError ("Failed to get installed packages: " ++ out))
  | .error e => .error (.runtimeError ("An error occurred: " ++ excMsg e))
  | .ok (_rc, pip_list) =>
      match w.jsonLoads pip_list with
      | .error em =>
          .error (.runtimeError ("Failed to parse installed packages: " ++ em))
      | .ok installed_packages => .ok installed_packages

/-- First-match loop of `infer_type` over its `match_pair` list, using the
Python substring test `patten in exe_path`; falls through to `unknown`. -/
def inferLoop (exe_path : String) : List (String × PyEnvType) → PyEnvType
  | [] => .unknown
  | (patten, env_type) :: rest =>
      if containsSub exe_path patten then env_type else inferLoop exe_path rest

/-- Embeds `PyEnv.infer_type`: normalizes the path to an absolute POSIX
form, then scans the `match_pair` list in order.  `sysPython` is the result
of the `get_sys_python()` collaborator (the currently-running system
interpreter's path), `cwd` the current working directory. -/
def PyEnv.infer_type (cwd sysPython executable_path : String) : PyEnvType :=
  inferLoop (absPosix cwd executable_path)
    [("venv", .venv), ("pypoetry", .poetry), ("conda", .conda),
     (absPosix cwd sysPython, .system)]

/-- Embeds `PyEnv.__init__`: absolutizes the executable path, queries
version then installed packages (either failure propagates), and sets the
kind — inferred when `type_` is the explicit `None`, otherwise the passed
member. -/
def PyEnv.init (w : PyWorld) (cwd sysPython executable_path : String)
    (type_ : Option PyEnvType) : Except PyExc PyEnv :=
  let exe_path := absPosix cwd executable_path
  match PyEnv.get_py_version w exe_path with
  | .error e => .error e
  | .ok pyversion =>
      match PyEnv.get_installed_packages w exe_path with
      | .error e => .error e
      | .ok installed_packages =>
          match type_ with
          | none =>
              .ok ⟨exe_path, pyversion, installed_packages,
                   PyEnv.infer_type cwd sysPython exe_path⟩
          | some t => .ok ⟨exe_path, pyversion, installed_packages, t⟩

/-- Construction with the `type_` parameter left at its declared default,
which in the source is `PyEnvType.unknown` (not `None`). -/
def PyEnv.initDefault (w : PyWorld) (cwd sysPython executable_path : String) :
    Except PyExc PyEnv :=
  PyEnv.init w cwd sysPython executable_path (some PyEnvType.unknown)

/-- Embeds `PyEnv.pkg_installed`: whether any installed-package record has
exactly the given name. -/
def PyEnv.pkg_installed (self : PyEnv) (package_name : String) : Bool :=
  self.installed_packages.any (fun pkg => pkg.name == package_name)

/-! ## Spec-side formulations of kind inference (for claim C1) -/

/-- Kind-inference cascade exactly as the spec words it: substring tests
for venv, pypoetry and conda, then an EXACT match of the normalized
system-interpreter path, otherwise unknown. -/
def inferTypeSpecExact (cwd sysPython executable_path : String) : PyEnvType :=
  let exe := absPosix cwd executable_path
  if containsSub exe "venv" then .venv
  else if containsSub exe "pypoetry" then .poetry
  else if containsSub exe "conda" then .conda
  else if exe = absPosix cwd sysPython then .system
  else .unknown

/-- The amended cascade: identical to `inferTypeSpecExact` except that the
system rule is substring containment of the normalized system-interpreter
path (of which exact match is a special case). -/
def inferTypeSpecSub (cwd sysPython executable_path : String) : PyEnvType :=
  let exe := absPosix cwd executable_path
  if containsSub exe "venv" then .venv
  else if containsSub exe "pypoetry" then .poetry
  else if containsSub exe "conda" then .conda
  else if containsSub exe (absPosix cwd sysPython) then .system
  else .unknown

/-! ## The task state holder (`PackagingTask`)

The GUI toolkit's signal/slot mechanism is modelled by returning the list
of emitted notifications in emission order; mutation of `self` is modelled
by returning the updated state.  A raised exception is returned alongside
the state current at the moment of the raise. -/

/-- A Python value submitted as an option value or stored in the option
map: a string, a `pathlib.Path` object (carrying its normalized string
form), a boolean, or an integer. -/
inductive PyValue where
  | vstr (s : String)
  | vpath (s : String)
  | vbool (b : Bool)
  | vint (n : Int)
  deriving DecidableEq

/-- The first element of a submitted `(option, value)` tuple: either a
member of the option enumeration, or some other object (carrying its
display text), for which `isinstance(arg_key, PyInstOpt)` is false and
`==` against any member is false. -/
inductive ArgKey where
  | opt (o : PyInstOpt)
  | other (repr_ : String)
  deriving DecidableEq

/-- One emitted notification: `option_set` (acceptance, carrying the
emitted tuple), `option_error` (rejection, carrying the option member), or
`ready_to_pack` (readiness, carrying a boolean). -/
inductive TaskEvent where
  | option_set (key : ArgKey) (value : PyValue)
  | option_error (key : PyInstOpt)
  | ready_to_pack (ready : Bool)
  deriving DecidableEq

/-- The mutable state of a `PackagingTask`: the attached environment record
and the option map.  The map is an insertion-ordered association list with
`none` as the unset marker, mirroring a Python dict keyed by `PyInstOpt`
members. -/
structure PackagingTaskState where
  pyenv : Option PyEnv
  using_option : List (PyInstOpt × Option PyValue)
  deriving DecidableEq

/-- Python dict assignment `d[k] = v`: replaces the value at `k` in place
if the key is present, otherwise appends the pair at the end. -/
def dictSet : List (PyInstOpt × Option PyValue) → PyInstOpt → Option PyValue →
    List (PyInstOpt × Option PyValue)
  | [], k, v => [(k, v)]
  | (k', v') :: rest, k, v =>
      if k' = k then (k, v) :: rest else (k', v') :: dictSet rest k v

/-- Python dict lookup `d[k]`: `some` of the stored value when the key is
present (`some none` means present-but-unset), `none` when absent. -/
def dictLookup : List (PyInstOpt × Option PyValue) → PyInstOpt →
    Option (Option PyValue)
  | [], _ => none
  | (k', v') :: rest, k => if k' = k then some v' else dictLookup rest k

/-- Embeds `PackagingTask.__init__`: no environment attached, and the
option map holding every enumeration member, each initialized to the unset
marker `None`. -/
def PackagingTask.initState : PackagingTaskState :=
  ⟨none, PyInstOpt.all.map (fun value => (value, none))⟩

/-- Models the `Path(arg_value)` constructor call: a string is normalized
into a path, a `Path` passes through, and any other value makes the
constructor raise `TypeError` (returned as `none` here). -/
def pathOfValue : PyValue → Option String
  | .vstr s => some (strOfPath s)
  | .vpath s => some s
  | _ => none

/-- Message of the `TypeError` raised by `Path()` on a non-path value. -/
def pathTypeErrMsg : String :=
  "argument should be a str or an os.PathLike object"

/-- Message of the `TypeError` raised for an unrecognized option
identifier, after the source's f-string. -/
def typeErrorMsg (key_repr : String) : String :=
  "\x27" ++ key_repr ++ "\x27 is not a instance of <enum \x27PyInstOpt\x27>."

/-- Result of one `on_opt_selected` call: the state after the call, the
notifications emitted in order, and the exception raised, if any. -/
structure StepResult where
  state : PackagingTaskState
  events : List TaskEvent
  exc : Option PyExc
  deriving DecidableEq

/-- Embeds `PackagingTask.on_opt_selected`.  `validateScript` and
`validateIcon` are the `FilePathValidator.validate_script` /
`validate_icon` collaborators (external to the examined sources), taking
the path's textual form. -/
def on_opt_selected (validateScript validateIcon : String → Bool)
    (st : PackagingTaskState) (argKey : ArgKey) (argValue : PyValue) :
    StepResult :=
  if argKey = ArgKey.opt PyInstOpt.script_path then
    match pathOfValue argValue with
    | none => ⟨st, [], some (.typeError pathTypeErrMsg)⟩
    | some script_path =>
        if validateScript script_path then
          let st1 := { st with using_option := (dictSet st.using_option PyInstOpt.script_path (some (.vpath script_path))) }
          let out := stemOfName (pathName script_path)
          let st2 := { st1 with using_option := (dictSet st1.using_option PyInstOpt.out_name (some (.vstr out))) }
          ⟨st2,
           [.ready_to_pack true, .option_set argKey argValue,
            .option_set (ArgKey.opt PyInstOpt.out_name) (.vstr out)],
           none⟩
        else
          ⟨st, [.ready_to_pack false, .option_error PyInstOpt.script_path],
           none⟩
  else if argKey = ArgKey.opt PyInstOpt.icon_path then
    match pathOfValue argValue with
    | none => ⟨st, [], some (.typeError pathTypeErrMsg)⟩
    | some icon_path =>
        if validateIcon icon_path then
          ⟨{ st with using_option := (dictSet st.using_option PyInstOpt.icon_path (some (.vpath icon_path))) },
           [.option_set argKey argValue], none⟩
        else
          ⟨st, [.option_error PyInstOpt.icon_path], none⟩
  else
    match argKey with
    | .opt arg_key =>
        ⟨{ st with using_option := (dictSet st.using_option arg_key (some argValue)) },
         [.option_set argKey argValue], none⟩
    | .other r => ⟨st, [], some (.typeError (typeErrorMsg r))⟩

/-! ## Concrete instances used by the witnesses -/

/-- A validator collaborator that accepts every path. -/
def valTrue : String → Bool := fun _ => true

/-- A validator collaborator that rejects every path. -/
def valFalse : String → Bool := fun _ => false

/-- A world in which every process runs and prints a version string, and
pip output decodes to an empty package list. -/
def wOk : PyWorld := ⟨fun _ => ProcResult.completed 0 "3.11.7", fun _ => Except.ok []⟩

/-- A world in which no process can be launched. -/
def wLaunchFail : PyWorld :=
  ⟨fun _ => ProcResult.launchFailure "No such file or directory", fun _ => Except.ok []⟩

/-- A world in which processes run but their stdout is not valid JSON. -/
def wBadJson : PyWorld :=
  ⟨fun _ => ProcResult.completed 0 "WARNING: pip is out of date",
   fun _ => Except.error "Expecting value: line 1 column 1 (char 0)"⟩

/-- The environment record built by `PyEnv.initDefault` against `wOk` for
`/opt/venv/bin/python3`. -/
def pyEnvDef0 : PyEnv := ⟨"/opt/venv/bin/python3", "3.11.7", [], PyEnvType.unknown⟩

/-- The environment record built with an explicit `type_` member. -/
def pyEnvExp0 : PyEnv := ⟨"/opt/venv/bin/python3", "3.11.7", [], PyEnvType.conda⟩

/-- The environment record built with `type_` explicitly `None` (kind
inferred) against `wOk` for `/opt/venv/bin/python3`. -/
def pyEnvInf0 : PyEnv := ⟨"/opt/venv/bin/python3", "3.11.7", [], PyEnvType.venv⟩

/-- An environment record with an empty installed-package list. -/
def pyEnvNoPkgs : PyEnv := ⟨"/usr/bin/python3", "3.11.7", [], PyEnvType.system⟩

/-! ## Shared lemmas -/

theorem PyInstOpt.mem_all (o : PyInstOpt) : o ∈ PyInstOpt.all := by
  cases o <;> simp [PyInstOpt.all]

theorem dictLookup_dictSet_self (m : List (PyInstOpt × Option PyValue))
    (k : PyInstOpt) (v : Option PyValue) :
    dictLookup (dictSet m k v) k = some v := by
  induction m with
  | nil => simp [dictSet, dictLookup]
  | cons p rest ih =>
      obtain ⟨k', v'⟩ := p
      by_cases h : k' = k
      · simp [dictSet, dictLookup, h]
      · simp [dictSet, dictLookup, h, ih]

theorem dictLookup_dictSet_ne (m : List (PyInstOpt × Option PyValue))
    (k k' : PyInstOpt) (h : k ≠ k') (v : Option PyValue) :
    dictLookup (dictSet m k v) k' = dictLookup m k' := by
  induction m with
  | nil => simp [dictSet, dictLookup, h]
  | cons p rest ih =>
      obtain ⟨a, b⟩ := p
      by_cases ha : a = k
      · subst ha
        simp [dictSet, dictLookup, h]
      · simp [dictSet, dictLookup, ha, ih]

theorem dictSet_keys_of_mem (m : List (PyInstOpt × Option PyValue))
    (k : PyInstOpt) (v : Option PyValue) (h : k ∈ m.map Prod.fst) :
    (dictSet m k v).map Prod.fst = m.map Prod.fst := by
  induction m with
  | nil => simp at h
  | cons p rest ih =>
      obtain ⟨a, b⟩ := p
      by_cases ha : a = k
      · simp [dictSet, ha]
      · have hk : k ∈ rest.map Prod.fst := by
          simp only [List.map_cons, List.mem_cons] at h
          exact h.resolve_left (fun hh => ha hh.symm)
        simp [dictSet, ha, ih hk]

/-! ## Claim theorems -/

/-- C1 (amended): for every executable path, `PyEnv.infer_type` first
absolutizes and POSIX-normalizes the path and then tests the rules in
order — substring "venv" gives venv, substring "pypoetry" gives poetry,
substring "conda" gives conda, substring containment of the normalized
path of the currently-running system interpreter (exact match included)
gives system — returning unknown when none match; the first matching rule
wins, so a path whose normalized form contains "venv" (even if it also
contains "conda") resolves to venv. -/
theorem c1_infer_type_cascade :
    (∀ cwd sysPython p, PyEnv.infer_type cwd sysPython p =
        inferTypeSpecSub cwd sysPython p) ∧
    (∀ cwd sysPython p, containsSub (absPosix cwd p) "venv" = true →
        PyEnv.infer_type cwd sysPython p = PyEnvType.venv) := by
  constructor
  · intro cwd sysPython p
    rfl
  · intro cwd sysPython p h
    simp [PyEnv.infer_type, inferLoop, h]

/-- Witness for C1: a path containing both "venv" and "conda" resolves to
venv, by the amended theorem's ordering clause. -/
theorem c1_witness :
    PyEnv.infer_type "/home" "/usr/bin/python3" "/opt/venv/conda/bin/python"
      = PyEnvType.venv :=
  c1_infer_type_cascade.2 "/home" "/usr/bin/python3" "/opt/venv/conda/bin/python"
    (by decide)

/-- Counterexample to C1 as stated: the system rule of the code is
substring containment, not exact match.  For the executable path
`/usr/bin/python3.9` with system interpreter `/usr/bin/python3`, no
substring rule for venv/pypoetry/conda applies and the normalized path is
not equal to the system interpreter's, so the spec's cascade gives
unknown — but the code returns system, because the system interpreter's
path is a strict substring of the executable path. -/
theorem c1_counterexample :
    PyEnv.infer_type "/home" "/usr/bin/python3" "/usr/bin/python3.9"
        = PyEnvType.system ∧
    inferTypeSpecExact "/home" "/usr/bin/python3" "/usr/bin/python3.9"
        = PyEnvType.unknown ∧
    PyEnv.infer_type "/home" "/usr/bin/python3" "/usr/bin/python3.9" ≠
      inferTypeSpecExact "/home" "/usr/bin/python3" "/usr/bin/python3.9" := by
  refine ⟨by decide, by decide, by decide⟩

/-- C2: contrary to the claim, `get_py_version` never raises a
`RuntimeError`.  Because `subprocess.run` is called without `check=True`,
`CalledProcessError` is never raised and the `except` clause converting it
to `RuntimeError` is dead: for every world and path, either the process
completes (with any exit code, zero or not) and its stdout is returned as
the version, or the launch fails and the `OSError` propagates uncaught —
so `PyEnv` construction fails with an `OSError`, not a `RuntimeError`. -/
theorem c2_get_py_version_never_runtime_error :
    ∀ (w : PyWorld) (cwd sysPython p : String) (t : Option PyEnvType),
      (∃ rc out,
          w.run (pyVersionCmd (absPosix cwd p)) = ProcResult.completed rc out ∧
          PyEnv.get_py_version w (absPosix cwd p) = Except.ok out) ∨
      (∃ m,
          w.run (pyVersionCmd (absPosix cwd p)) = ProcResult.launchFailure m ∧
          PyEnv.get_py_version w (absPosix cwd p) =
            Except.error (PyExc.osError m) ∧
          PyEnv.init w cwd sysPython p t = Except.error (PyExc.osError m)) := by
  intro w cwd sysPython p t
  cases h : w.run (pyVersionCmd (absPosix cwd p)) with
  | completed rc out =>
      exact Or.inl ⟨rc, out, rfl,
        by simp [PyEnv.get_py_version, subprocessRun, h]⟩
  | launchFailure m =>
      refine Or.inr ⟨m, rfl, ?_, ?_⟩
      · simp [PyEnv.get_py_version, subprocessRun, h]
      · simp [PyEnv.init, PyEnv.get_py_version, subprocessRun, h]

/-- C3: `get_installed_packages` fails with a `RuntimeError` in both
failure modes, and the two are distinguishable: when the pip process could
not be launched the message starts "An error occurred: ", when the process
ran but its output failed to decode the message starts "Failed to parse
installed packages: ", and no message of the one form equals a message of
the other. -/
theorem c3_get_installed_packages_distinct_errors (w : PyWorld) (p : String) :
    (∀ m, w.run (pipListCmd p) = ProcResult.launchFailure m →
        PyEnv.get_installed_packages w p =
          Except.error (PyExc.runtimeError ("An error occurred: " ++ m))) ∧
    (∀ rc out em, w.run (pipListCmd p) = ProcResult.completed rc out →
        w.jsonLoads out = Except.error em →
        PyEnv.get_installed_packages w p =
          Except.error (PyExc.runtimeError
            ("Failed to parse installed packages: " ++ em))) ∧
    (∀ m em, ("An error occurred: " ++ m : String) ≠
        "Failed to parse installed packages: " ++ em) := by
  refine ⟨?_, ?_, ?_⟩
  · intro m h
    simp [PyEnv.get_installed_packages, subprocessRun, h, excMsg]
  · intro rc out em h hj
    simp [PyEnv.get_installed_packages, subprocessRun, h, hj]
  · intro m em h
    have h2 : some 'A' = some 'F' := congrArg (fun s : String => s.data.head?) h
    exact absurd h2 (by decide)

/-- Witness for C3: in a world where pip cannot be launched the result is
the "An error occurred" runtime error; in a world where pip runs but
prints non-JSON the result is the "Failed to parse installed packages"
runtime error. -/
theorem c3_witness :
    PyEnv.get_installed_packages wLaunchFail "/nonexistent/python" =
      Except.error (PyExc.runtimeError
        ("An error occurred: " ++ "No such file or directory")) ∧
    PyEnv.get_installed_packages wBadJson "/usr/bin/python3" =
      Except.error (PyExc.runtimeError
        ("Failed to parse installed packages: " ++
          "Expecting value: line 1 column 1 (char 0)")) :=
  ⟨(c3_get_installed_packages_distinct_errors wLaunchFail "/nonexistent/python").1
      "No such file or directory" rfl,
   (c3_get_installed_packages_distinct_errors wBadJson "/usr/bin/python3").2.1
      0 "WARNING: pip is out of date" "Expecting value: line 1 column 1 (char 0)"
      rfl rfl⟩

/-- C8: `pkg_installed` returns true exactly when some record of the
installed list has that exact name, and returns false on an empty list. -/
theorem c8_pkg_installed_iff (env : PyEnv) (name : String) :
    (env.pkg_installed name = true ↔
        ∃ pkg ∈ env.installed_packages, pkg.name = name) ∧
    (env.installed_packages = [] → env.pkg_installed name = false) := by
  constructor
  · simp [PyEnv.pkg_installed, List.any_eq_true]
  · intro h
    simp [PyEnv.pkg_installed, h]

/-- Witness for C8: on a record with an empty installed list,
`pkg_installed "pip"` is false. -/
theorem c8_witness : pyEnvNoPkgs.pkg_installed "pip" = false :=
  (c8_pkg_installed_iff pyEnvNoPkgs "pip").2 rfl

/-- C10: a `PyEnv` constructed with the `type_` parameter left at its
default gets kind unknown (the declared default is `PyEnvType.unknown`,
not the inference sentinel); any explicitly passed member is stored as-is
with no inference; kind inference runs exactly when `type_` is the
explicit sentinel `None`. -/
theorem c10_default_kind_unknown (w : PyWorld) (cwd sysPython p : String) :
    (∀ r, PyEnv.initDefault w cwd sysPython p = Except.ok r →
        r.type = PyEnvType.unknown) ∧
    (∀ t r, PyEnv.init w cwd sysPython p (some t) = Except.ok r →
        r.type = t) ∧
    (∀ r, PyEnv.init w cwd sysPython p none = Except.ok r →
        r.type = PyEnv.infer_type cwd sysPython (absPosix cwd p)) := by
  refine ⟨fun r h => ?_, fun t r h => ?_, fun r h => ?_⟩ <;>
  · simp only [PyEnv.initDefault, PyEnv.init] at h
    cases hv : PyEnv.get_py_version w (absPosix cwd p) with
    | error e => rw [hv] at h; exact absurd h (by simp)
    | ok ver =>
        rw [hv] at h
        cases hp : PyEnv.get_installed_packages w (absPosix cwd p) with
        | error e => rw [hp] at h; exact absurd h (by simp)
        | ok pkgs =>
            rw [hp] at h
            cases h
            rfl

/-- Witness for C10: against a world where both queries succeed, default
construction for a path containing "venv" still yields kind unknown, an
explicit member is stored as-is, and construction with the explicit `None`
sentinel yields the inferred kind venv. -/
theorem c10_witness :
    pyEnvDef0.type = PyEnvType.unknown ∧
    pyEnvExp0.type = PyEnvType.conda ∧
    pyEnvInf0.type =
      PyEnv.infer_type "/home" "/usr/bin/python3"
        (absPosix "/home" "/opt/venv/bin/python3") :=
  ⟨(c10_default_kind_unknown wOk "/home" "/usr/bin/python3"
      "/opt/venv/bin/python3").1 pyEnvDef0 rfl,
   (c10_default_kind_unknown wOk "/home" "/usr/bin/python3"
      "/opt/venv/bin/python3").2.1 PyEnvType.conda pyEnvExp0 rfl,
   (c10_default_kind_unknown wOk "/home" "/usr/bin/python3"
      "/opt/venv/bin/python3").2.2 pyEnvInf0 rfl⟩

/-- C4: submitting a value that validates as a script file under the
script-path option stores the `Path` in the option map, emits
readiness true, emits acceptance for the script path, and stores and
emits a second acceptance for the derived output-name option, whose value
is the path's base name with its extension stripped. -/
theorem c4_script_path_accept (validateScript validateIcon : String → Bool)
    (st : PackagingTaskState) (v : PyValue) (p : String)
    (hp : pathOfValue v = some p) (hv : validateScript p = true) :
    dictLookup (on_opt_selected validateScript validateIcon st
        (ArgKey.opt PyInstOpt.script_path) v).state.using_option
        PyInstOpt.script_path = some (some (PyValue.vpath p)) ∧
    dictLookup (on_opt_selected validateScript validateIcon st
        (ArgKey.opt PyInstOpt.script_path) v).state.using_option
        PyInstOpt.out_name =
      some (some (PyValue.vstr (stemOfName (pathName p)))) ∧
    (on_opt_selected validateScript validateIcon st
        (ArgKey.opt PyInstOpt.script_path) v).events =
      [TaskEvent.ready_to_pack true,
       TaskEvent.option_set (ArgKey.opt PyInstOpt.script_path) v,
       TaskEvent.option_set (ArgKey.opt PyInstOpt.out_name)
         (PyValue.vstr (stemOfName (pathName p)))] ∧
    (on_opt_selected validateScript validateIcon st
        (ArgKey.opt PyInstOpt.script_path) v).exc = none := by
  have hstep : on_opt_selected validateScript validateIcon st
      (ArgKey.opt PyInstOpt.script_path) v =
      ⟨{ st with using_option :=
          (dictSet (dictSet st.using_option PyInstOpt.script_path
            (some (PyValue.vpath p))) PyInstOpt.out_name
            (some (PyValue.vstr (stemOfName (pathName p))))) },
       [TaskEvent.ready_to_pack true,
        TaskEvent.option_set (ArgKey.opt PyInstOpt.script_path) v,
        TaskEvent.option_set (ArgKey.opt PyInstOpt.out_name)
          (PyValue.vstr (stemOfName (pathName p)))], none⟩ := by
    simp [on_opt_selected, hp, hv]
  rw [hstep]
  refine ⟨?_, ?_, rfl, rfl⟩
  · rw [dictLookup_dictSet_ne _ PyInstOpt.out_name PyInstOpt.script_path
      (by decide) _]
    exact dictLookup_dictSet_self _ _ _
  · exact dictLookup_dictSet_self _ _ _

/-- Witness for C4: submitting `/project/build_app.py` (accepted by an
always-true validator) to a fresh task stores the path, derives the output
name `build_app`, and emits readiness, then both acceptances. -/
theorem c4_witness :
    dictLookup (on_opt_selected valTrue valTrue PackagingTask.initState
        (ArgKey.opt PyInstOpt.script_path)
        (PyValue.vstr "/project/build_app.py")).state.using_option
        PyInstOpt.script_path =
      some (some (PyValue.vpath "/project/build_app.py")) ∧
    dictLookup (on_opt_selected valTrue valTrue PackagingTask.initState
        (ArgKey.opt PyInstOpt.script_path)
        (PyValue.vstr "/project/build_app.py")).state.using_option
        PyInstOpt.out_name = some (some (PyValue.vstr "build_app")) ∧
    (on_opt_selected valTrue valTrue PackagingTask.initState
        (ArgKey.opt PyInstOpt.script_path)
        (PyValue.vstr "/project/build_app.py")).events =
      [TaskEvent.ready_to_pack true,
       TaskEvent.option_set (ArgKey.opt PyInstOpt.script_path)
         (PyValue.vstr "/project/build_app.py"),
       TaskEvent.option_set (ArgKey.opt PyInstOpt.out_name)
         (PyValue.vstr "build_app")] ∧
    (on_opt_selected valTrue valTrue PackagingTask.initState
        (ArgKey.opt PyInstOpt.script_path)
        (PyValue.vstr "/project/build_app.py")).exc = none :=
  c4_script_path_accept valTrue valTrue PackagingTask.initState
    (PyValue.vstr "/project/build_app.py") "/project/build_app.py" rfl rfl

/-- C5: a value that fails validation mutates no state.  An invalid script
path leaves the state (hence the script-path map entry) unchanged and
emits readiness false then a rejection, with no acceptance; an invalid
icon path leaves the state unchanged and emits just a rejection, with no
readiness event. -/
theorem c5_rejection_mutates_nothing (validateScript validateIcon : String → Bool)
    (st : PackagingTaskState) (v : PyValue) (p : String)
    (hp : pathOfValue v = some p) :
    (validateScript p = false →
      on_opt_selected validateScript validateIcon st
          (ArgKey.opt PyInstOpt.script_path) v =
        ⟨st, [TaskEvent.ready_to_pack false,
              TaskEvent.option_error PyInstOpt.script_path], none⟩) ∧
    (validateIcon p = false →
      on_opt_selected validateScript validateIcon st
          (ArgKey.opt PyInstOpt.icon_path) v =
        ⟨st, [TaskEvent.option_error PyInstOpt.icon_path], none⟩) := by
  constructor <;> intro h <;> simp [on_opt_selected, hp, h]

/-- Witness for C5: with an always-false validator, submitting
`/missing/app.py` as script path and as icon path to a fresh task leaves
the state unchanged and emits only the claimed notifications. -/
theorem c5_witness :
    on_opt_selected valFalse valFalse PackagingTask.initState
        (ArgKey.opt PyInstOpt.script_path) (PyValue.vstr "/missing/app.py") =
      ⟨PackagingTask.initState,
       [TaskEvent.ready_to_pack false,
        TaskEvent.option_error PyInstOpt.script_path], none⟩ ∧
    on_opt_selected valFalse valFalse PackagingTask.initState
        (ArgKey.opt PyInstOpt.icon_path) (PyValue.vstr "/missing/app.py") =
      ⟨PackagingTask.initState,
       [TaskEvent.option_error PyInstOpt.icon_path], none⟩ :=
  ⟨(c5_rejection_mutates_nothing valFalse valFalse PackagingTask.initState
      (PyValue.vstr "/missing/app.py") "/missing/app.py" rfl).1 rfl,
   (c5_rejection_mutates_nothing valFalse valFalse PackagingTask.initState
      (PyValue.vstr "/missing/app.py") "/missing/app.py" rfl).2 rfl⟩

/-- C6: for every recognized option other than script path and icon path,
submitting any value stores it verbatim in the option map and emits
exactly one acceptance notification — never a rejection, never a
readiness event, and no exception. -/
theorem c6_other_options_verbatim (validateScript validateIcon : String → Bool)
    (st : PackagingTaskState) (v : PyValue) (k : PyInstOpt)
    (h1 : k ≠ PyInstOpt.script_path) (h2 : k ≠ PyInstOpt.icon_path) :
    dictLookup (on_opt_selected validateScript validateIcon st
        (ArgKey.opt k) v).state.using_option k = some (some v) ∧
    (on_opt_selected validateScript validateIcon st (ArgKey.opt k) v).events =
      [TaskEvent.option_set (ArgKey.opt k) v] ∧
    (on_opt_selected validateScript validateIcon st (ArgKey.opt k) v).exc =
      none := by
  refine ⟨?_, ?_, ?_⟩ <;> simp [on_opt_selected, h1, h2, dictLookup_dictSet_self]

/-- Witness for C6: submitting a boolean for the clean option stores it
verbatim and emits exactly the one acceptance. -/
theorem c6_witness :
    dictLookup (on_opt_selected valTrue valTrue PackagingTask.initState
        (ArgKey.opt PyInstOpt.clean) (PyValue.vbool true)).state.using_option
        PyInstOpt.clean = some (some (PyValue.vbool true)) ∧
    (on_opt_selected valTrue valTrue PackagingTask.initState
        (ArgKey.opt PyInstOpt.clean) (PyValue.vbool true)).events =
      [TaskEvent.option_set (ArgKey.opt PyInstOpt.clean) (PyValue.vbool true)] ∧
    (on_opt_selected valTrue valTrue PackagingTask.initState
        (ArgKey.opt PyInstOpt.clean) (PyValue.vbool true)).exc = none :=
  c6_other_options_verbatim valTrue valTrue PackagingTask.initState
    (PyValue.vbool true) PyInstOpt.clean (by decide) (by decide)

/-- C7: a submission whose option identifier is not a member of the
option enumeration raises a `TypeError`, emits nothing, and leaves the
state — in particular the option map — unmodified. -/
theorem c7_unrecognized_key_raises (validateScript validateIcon : String → Bool)
    (st : PackagingTaskState) (r : String) (v : PyValue) :
    (on_opt_selected validateScript validateIcon st (ArgKey.other r) v).state
        = st ∧
    (on_opt_selected validateScript validateIcon st (ArgKey.other r) v).events
        = [] ∧
    ∃ m, (on_opt_selected validateScript validateIcon st
        (ArgKey.other r) v).exc = some (PyExc.typeError m) := by
  refine ⟨?_, ?_, typeErrorMsg r, ?_⟩ <;> simp [on_opt_selected]

theorem on_opt_selected_keys (validateScript validateIcon : String → Bool)
    (st : PackagingTaskState) (k : ArgKey) (v : PyValue)
    (h : ∀ o : PyInstOpt, o ∈ st.using_option.map Prod.fst) :
    (on_opt_selected validateScript validateIcon st k v).state.using_option.map
        Prod.fst = st.using_option.map Prod.fst := by
  cases k with
  | other s => simp [on_opt_selected]
  | opt o =>
      by_cases h1 : o = PyInstOpt.script_path
      · subst h1
        cases hpv : pathOfValue v with
        | none => simp [on_opt_selected, hpv]
        | some p =>
            by_cases hv : validateScript p = true
            · have k1 := dictSet_keys_of_mem st.using_option
                PyInstOpt.script_path (some (PyValue.vpath p))
                (h PyInstOpt.script_path)
              have k2 : PyInstOpt.out_name ∈ (dictSet st.using_option
                  PyInstOpt.script_path
                  (some (PyValue.vpath p))).map Prod.fst := by
                rw [k1]; exact h PyInstOpt.out_name
              have k3 := dictSet_keys_of_mem _ PyInstOpt.out_name
                (some (PyValue.vstr (stemOfName (pathName p)))) k2
              simp [on_opt_selected, hpv, hv, k3, k1]
            · simp [on_opt_selected, hpv, hv]
      · by_cases h2 : o = PyInstOpt.icon_path
        · subst h2
          cases hpv : pathOfValue v with
          | none => simp [on_opt_selected, hpv]
          | some p =>
              by_cases hv : validateIcon p = true
              · have k1 := dictSet_keys_of_mem st.using_option
                  PyInstOpt.icon_path (some (PyValue.vpath p))
                  (h PyInstOpt.icon_path)
                simp [on_opt_selected, hpv, hv, k1]
              · simp [on_opt_selected, hpv, hv]
        · have k1 := dictSet_keys_of_mem st.using_option o (some v) (h o)
          simp [on_opt_selected, h1, h2, k1]

/-- C9: the option map's key set is invariant.  At construction it holds
exactly the members of the option enumeration, in order, each initialized
to the unset marker; and every submission — accepted, rejected, or
raising — leaves the key list exactly the enumeration. -/
theorem c9_option_map_keys_invariant :
    PackagingTask.initState.using_option =
      PyInstOpt.all.map (fun o => (o, (none : Option PyValue))) ∧
    ∀ (validateScript validateIcon : String → Bool)
      (st : PackagingTaskState) (k : ArgKey) (v : PyValue),
      st.using_option.map Prod.fst = PyInstOpt.all →
      (on_opt_selected validateScript validateIcon st k v).state.using_option.map
          Prod.fst = PyInstOpt.all := by
  refine ⟨rfl, fun validateScript validateIcon st k v h => ?_⟩
  have hmem : ∀ o : PyInstOpt, o ∈ st.using_option.map Prod.fst := by
    rw [h]; exact PyInstOpt.mem_all
  rw [on_opt_selected_keys validateScript validateIcon st k v hmem, h]

/-- Witness for C9: a fresh task's map holds the enumeration's members,
and after an accepted submission the key list is still the enumeration. -/
theorem c9_witness :
    PackagingTask.initState.using_option =
      PyInstOpt.all.map (fun o => (o, (none : Option PyValue))) ∧
    (on_opt_selected valTrue valTrue PackagingTask.initState
        (ArgKey.opt PyInstOpt.out_name)
        (PyValue.vstr "renamed")).state.using_option.map Prod.fst =
      PyInstOpt.all :=
  ⟨c9_option_map_keys_invariant.1,
   c9_option_map_keys_invariant.2 valTrue valTrue PackagingTask.initState
     (ArgKey.opt PyInstOpt.out_name) (PyValue.vstr "renamed") (by decide)⟩

end Py2exeGUI
